import Mathlib

/-
Verification of the college-chatbot-api repository.

The repository is a FAQ-retrieval chatbot with two front ends:
a FastAPI HTTP service (src/api_app.py) and an interactive CLI loop
(src/app.py).  Both share the same two-stage pipeline: a Retriever
(get_relevant_faq) that performs a nearest-neighbor search against a
Weaviate vector store, and a Responder (generate_llm_response) that calls
the hosted DeepSeek chat-completion endpoint.

This file is a shallow embedding of that pipeline.  The two outbound
calls (vector search, hosted-model HTTP POST) are modelled as explicit
outcome parameters: the store call either raises (Except.error) or
returns a list of objects, and the model call either yields an HTTP
response, times out, or raises some other exception.  All string
literals are copied verbatim from the source, with apostrophes written
as hexadecimal escapes.  Python semantics that matter are made explicit: truthiness of
os.getenv results, str() of None, str.strip() and str.lower().
-/

namespace CollegeChatbot

/-- Python whitespace characters recognised by str.strip(): space, tab,
newline, carriage return, vertical tab, form feed. -/
def pyIsSpace (c : Char) : Bool :=
  c = ' ' || c = '\t' || c = '\n' || c = '\r' || c = '\x0b' || c = '\x0c'

/-- Python str.strip(): remove leading and trailing whitespace. -/
def pyStrip (s : String) : String :=
  ⟨((s.data.dropWhile pyIsSpace).reverse.dropWhile pyIsSpace).reverse⟩

/-- Python str.lower() on the ASCII letters that occur in the sentinel. -/
def pyLower (s : String) : String :=
  ⟨s.data.map Char.toLower⟩

/-- Python string formatting of an optional string: None prints as the
four-letter word None. -/
def pyStr : Option String → String
  | none => "None"
  | some s => s

/-- Python truthiness of an os.getenv result: None and the empty string
are falsy, every other string is truthy. -/
def pyTruthy : Option String → Bool
  | none => false
  | some s => !s.isEmpty

/- ---------------------------------------------------------------------
Data model
--------------------------------------------------------------------- -/

/-- One object returned by the Weaviate near-vector search.  Its
properties field is the Python dict o.properties, modelled as an
association list; the code tests its truthiness (non-emptiness) and
reads the keys question and answer with dict.get. -/
structure StoreObject where
  properties : List (String × String)
deriving DecidableEq

/-- A retrieved FAQ record as built by get_relevant_faq: a dict with
exactly the keys question and answer, whose values come from
properties.get and may therefore be None. -/
structure FAQRecord where
  question : Option String
  answer : Option String
deriving DecidableEq

/-- FastAPI HTTPException as raised by src/api_app.py: a status code and
a detail string. -/
structure HTTPException where
  status_code : Nat
  detail : String
deriving DecidableEq

/-- One message of the chat-completion conversation. -/
structure ChatMessage where
  role : String
  content : String
deriving DecidableEq

/-- The outbound POST to the DeepSeek endpoint: url, payload fields, and
the timeout argument passed to requests.post (None when the call site
passes no timeout).  The sampling temperature 0.7 is stored times ten
to keep the model free of floating point. -/
structure DeepSeekRequest where
  url : String
  model : String
  messages : List ChatMessage
  max_tokens : Nat
  temperature_times_ten : Nat
  stream : Bool
  timeout : Option Nat
deriving DecidableEq

/-- The message object inside one completion choice. -/
structure LLMMessage where
  content : String
deriving DecidableEq

/-- One element of the choices array of a chat-completion response. -/
structure LLMChoice where
  message : LLMMessage
deriving DecidableEq

/-- The parsed JSON body of a hosted-model response.  choices is none
when the key is absent (which also covers a falsy response_data, since
a JSON object containing the key choices is truthy). -/
structure LLMBody where
  choices : Option (List LLMChoice)
deriving DecidableEq

/-- An HTTP response from the hosted model: status code, raw body text
(used in error messages), and the body parsed as JSON (none when
response.json() would raise). -/
structure HttpResponse where
  status : Nat
  text : String
  jsonBody : Option LLMBody
deriving DecidableEq

/-- Outcome of the requests.post call to the hosted model: an HTTP
response was received, the request timed out, or some other exception
(connection error, and so on) was raised. -/
inductive HttpOutcome where
  | response (r : HttpResponse)
  | timeout
  | connError (msg : String)
deriving DecidableEq

/-- The parameters of the near-vector search call issued by
get_relevant_faq: the result limit and the properties requested. -/
structure NearVectorQuery where
  limit : Nat
  return_properties : List String
deriving DecidableEq

/-- The JSON object returned by the /chat/ endpoint:
response and source_faq. -/
structure ChatReply where
  response : String
  source_faq : Option FAQRecord
deriving DecidableEq

/- ---------------------------------------------------------------------
Retriever (get_relevant_faq), src/api_app.py lines 82-107 and
src/app.py lines 49-77
--------------------------------------------------------------------- -/

/-- The near-vector query both front ends build:
limit equals top_k and return_properties is exactly
the two-element list question, answer. -/
def near_vector_query (top_k : Nat) : NearVectorQuery :=
  { limit := top_k, return_properties := ["question", "answer"] }

/-- The result-extraction loop shared verbatim by both front ends: for
each returned object whose properties dict is truthy, append a dict
with the question and answer values obtained by dict.get. -/
def extract_results (objects : List StoreObject) : List FAQRecord :=
  objects.filterMap fun o =>
    if o.properties.isEmpty then none
    else some { question := o.properties.lookup "question",
                answer := o.properties.lookup "answer" }

/-- get_relevant_faq of src/api_app.py: a store failure is re-raised as
HTTPException(500, ...); a successful search yields the extracted
records. -/
def api_get_relevant_faq (storeResult : Except String (List StoreObject)) :
    Except HTTPException (List FAQRecord) :=
  match storeResult with
  | .error _ =>
      .error { status_code := 500, detail := "Error retrieving FAQs from database." }
  | .ok objects => .ok (extract_results objects)

/-- get_relevant_faq of src/app.py: a store failure is caught, printed,
and swallowed by returning the empty list. -/
def cli_get_relevant_faq (storeResult : Except String (List StoreObject)) :
    List FAQRecord :=
  match storeResult with
  | .error _ => []
  | .ok objects => extract_results objects

/- ---------------------------------------------------------------------
Responder (generate_llm_response), src/api_app.py lines 109-164 and
src/app.py lines 79-124
--------------------------------------------------------------------- -/

/-- The fixed system instruction, identical in both front ends. -/
def system_prompt : String :=
  "You are a helpful assistant for Punjab Group of Colleges Jaranwala. Use the provided college FAQ to answer the user\x27s question. If the FAQ does not contain the answer, politely state that you don\x27t have information on that topic. Keep your answer concise and directly related to the provided FAQ. Always prioritize information from the provided FAQ."

/-- The DeepSeek chat-completion endpoint URL. -/
def DEEPSEEK_API_URL : String := "https://api.deepseek.com/chat/completions"

/-- The two-message conversation built by generate_llm_response in both
front ends: the fixed system instruction, then one user message holding
the original question and the grounding text. -/
def build_messages (user_query relevant_faq_text : String) : List ChatMessage :=
  [ { role := "system", content := system_prompt },
    { role := "user",
      content := "User\x27s original question: " ++ user_query ++
        "\n\nRelevant College FAQ:\n" ++ relevant_faq_text } ]

/-- The POST request built by src/api_app.py: payload fields plus the
explicit timeout=10 argument. -/
def api_request (user_query relevant_faq_text : String) : DeepSeekRequest :=
  { url := DEEPSEEK_API_URL
    model := "deepseek-chat"
    messages := build_messages user_query relevant_faq_text
    max_tokens := 300
    temperature_times_ten := 7
    stream := false
    timeout := some 10 }

/-- The POST request built by src/app.py: same payload, but the call
site passes no timeout argument at all. -/
def cli_request (user_query relevant_faq_text : String) : DeepSeekRequest :=
  { url := DEEPSEEK_API_URL
    model := "deepseek-chat"
    messages := build_messages user_query relevant_faq_text
    max_tokens := 300
    temperature_times_ten := 7
    stream := false
    timeout := none }

/-- requests Response.raise_for_status raises HTTPError exactly for
status codes in the 4xx and 5xx ranges. -/
def raise_for_status (status : Nat) : Bool :=
  decide (400 ≤ status) && decide (status < 600)

/-- The fixed apology returned when the response carries no choices,
identical in both front ends. -/
def apology_message : String :=
  "I couldn\x27t generate a response for that. Please try rephrasing."

/-- generate_llm_response of src/api_app.py, response handling: on an
HTTP response, raise_for_status first (402 becomes HTTPException 503,
other 4xx/5xx become HTTPException 500 carrying status and body); then
the JSON body is read (a parse failure falls into the generic handler);
a first choice yields its stripped content, no choices yields the
apology.  A timeout becomes HTTPException 504, any other exception the
generic HTTPException 500. -/
def api_generate_llm_response (user_query relevant_faq_text : String)
    (outcome : HttpOutcome) : Except HTTPException String :=
  match outcome with
  | .response r =>
      if raise_for_status r.status then
        if r.status = 402 then
          .error { status_code := 503,
                   detail := "DeepSeek API: Insufficient Balance. Please top up your account." }
        else
          .error { status_code := 500,
                   detail := "DeepSeek API Error: " ++ toString r.status ++ " - " ++ r.text }
      else
        match r.jsonBody with
        | some body =>
            match body.choices with
            | some (c :: _) => .ok (pyStrip c.message.content)
            | _ => .ok apology_message
        | none => .error { status_code := 500, detail := "Error generating AI response." }
  | .timeout =>
      .error { status_code := 504, detail := "DeepSeek API did not respond in time." }
  | .connError _ =>
      .error { status_code := 500, detail := "Error generating AI response." }

/-- generate_llm_response of src/app.py, response handling: it never
raises; every HTTPError maps to one fixed connection-trouble string,
and every other exception (including a timeout, for which there is no
dedicated handler) maps to one fixed generation-trouble string. -/
def cli_generate_llm_response (user_query relevant_faq_text : String)
    (outcome : HttpOutcome) : String :=
  match outcome with
  | .response r =>
      if raise_for_status r.status then
        "I\x27m having trouble connecting to the AI. Please try again later."
      else
        match r.jsonBody with
        | some body =>
            match body.choices with
            | some (c :: _) => pyStrip c.message.content
            | _ => apology_message
        | none => "I\x27m having trouble generating a response. Please try again later."
  | .timeout => "I\x27m having trouble generating a response. Please try again later."
  | .connError _ => "I\x27m having trouble generating a response. Please try again later."

/- ---------------------------------------------------------------------
Pipeline orchestration: chat_with_bot (src/api_app.py lines 168-187)
and run_chatbot (src/app.py lines 128-150)
--------------------------------------------------------------------- -/

/-- The fixed no-match fallback message, identical in both front ends. -/
def no_match_message : String :=
  "I couldn\x27t find a relevant FAQ for your question. Please try rephrasing or ask about general college topics."

/-- The grounding text built from the top FAQ in both front ends. -/
def build_context_text (top_faq : FAQRecord) : String :=
  "Question: " ++ pyStr top_faq.question ++ "\nAnswer: " ++ pyStr top_faq.answer

/-- The /chat/ endpoint handler of src/api_app.py: retrieve with
top_k=1; an HTTPException from retrieval propagates; a non-empty result
grounds a Responder call whose result (or failure) is returned with the
top FAQ as provenance; an empty result returns the fixed fallback with
source_faq None, without calling the Responder. -/
def chat_with_bot (storeResult : Except String (List StoreObject))
    (outcome : HttpOutcome) (user_query : String) : Except HTTPException ChatReply :=
  match api_get_relevant_faq storeResult with
  | .error e => .error e
  | .ok (top_faq :: _) =>
      (api_generate_llm_response user_query (build_context_text top_faq) outcome).map
        (fun resp => { response := resp, source_faq := some top_faq })
  | .ok [] => .ok { response := no_match_message, source_faq := none }

/-- One non-exit turn of the CLI loop of src/app.py: retrieve with
top_k=1 and print either the Responder output or the fixed fallback,
each prefixed by the chatbot prompt. -/
def cli_process_query (storeResult : Except String (List StoreObject))
    (outcome : HttpOutcome) (user_input : String) : String :=
  match cli_get_relevant_faq storeResult with
  | top_faq :: _ =>
      "Chatbot: " ++ cli_generate_llm_response user_input (build_context_text top_faq) outcome
  | [] => "Chatbot: " ++ no_match_message

/-- What the CLI read loop does with one raw input line. -/
inductive CliStep where
  | quit
  | process (query : String)
deriving DecidableEq

/-- The loop head of run_chatbot: strip the raw line; if its lowercase
form equals the sentinel exit, leave the loop, otherwise process the
stripped line as the query. -/
def cli_read_step (line : String) : CliStep :=
  let user_input := pyStrip line
  if pyLower user_input = "exit" then .quit else .process user_input

/-- run_chatbot of src/app.py over a finite list of input lines, with
the store and the hosted model supplied as per-query oracles; returns
the list of printed chatbot lines. -/
def run_chatbot (store : String → Except String (List StoreObject))
    (llm : String → HttpOutcome) : List String → List String
  | [] => []
  | line :: rest =>
      match cli_read_step line with
      | .quit => ["Chatbot: Goodbye!"]
      | .process q => cli_process_query (store q) (llm q) q :: run_chatbot store llm rest

/- ---------------------------------------------------------------------
Startup configuration checks: src/api_app.py lines 31-41 and
src/app.py lines 20-22
--------------------------------------------------------------------- -/

/-- The module-level environment checks of src/api_app.py, run at import
time before the FastAPI app exists: each of the three variables is
tested for Python truthiness in order and a falsy one raises ValueError
with the corresponding message. -/
def api_startup_check (deepseek_api_key weaviate_url weaviate_api_key : Option String) :
    Except String Unit :=
  if !pyTruthy deepseek_api_key then .error "DEEPSEEK_API_KEY not set."
  else if !pyTruthy weaviate_url then .error "WEAVIATE_URL not set."
  else if !pyTruthy weaviate_api_key then .error "WEAVIATE_API_KEY not set."
  else .ok ()

/-- Whether the CLI process reaches its main loop or exits first. -/
inductive CliStartup where
  | started
  | exited
deriving DecidableEq

/-- The module-level check of src/app.py: a falsy DEEPSEEK_API_KEY
calls exit() before anything else runs (the Weaviate URL is hardcoded
there, so no other variable is required). -/
def cli_startup_check (deepseek_api_key : Option String) : CliStartup :=
  if !pyTruthy deepseek_api_key then .exited else .started

/- ---------------------------------------------------------------------
Claims
--------------------------------------------------------------------- -/

/-- Claim C1, counterexample: the claim asserts that in both front ends
a store failure is distinguishable from an empty store.  In the CLI
front end (src/app.py) get_relevant_faq swallows the failure and
returns the empty list, exactly the result an empty store produces. -/
theorem c1_counterexample :
    cli_get_relevant_faq (Except.error "connection refused") =
      cli_get_relevant_faq (Except.ok []) := rfl

/-- Claim C1 (amended): in the HTTP front end a store failure surfaces
as HTTPException(500), which is never equal to the empty-store result
Except.ok [], while the CLI front end returns the empty list on a store
failure, indistinguishable from no match. -/
theorem c1_retrieval_failure_distinct (emsg : String) (objects : List StoreObject) :
    api_get_relevant_faq (Except.error emsg) =
      Except.error { status_code := 500, detail := "Error retrieving FAQs from database." } ∧
    api_get_relevant_faq (Except.ok objects) = Except.ok (extract_results objects) ∧
    api_get_relevant_faq (Except.error emsg) ≠ api_get_relevant_faq (Except.ok []) ∧
    cli_get_relevant_faq (Except.error emsg) = [] :=
  ⟨rfl, rfl, fun h => Except.noConfusion h, rfl⟩

/-- Claim C2, counterexample: the claim asserts a hard 10-second
timeout and a distinct timeout report in both front ends.  The CLI
front end passes no timeout argument to requests.post, and an eventual
timeout exception lands in the generic handler, producing the same
string as any other non-HTTP exception. -/
theorem c2_counterexample :
    (cli_request "q" "ctx").timeout = none ∧
    cli_generate_llm_response "q" "ctx" HttpOutcome.timeout =
      cli_generate_llm_response "q" "ctx" (HttpOutcome.connError "boom") :=
  ⟨rfl, rfl⟩

/-- Claim C2 (amended): in the HTTP front end the hosted-model request
carries timeout=10, a timeout is reported as the distinct
HTTPException 504, and no other outcome produces a 504. -/
theorem c2_api_timeout (user_query relevant_faq_text : String) :
    (api_request user_query relevant_faq_text).timeout = some 10 ∧
    api_generate_llm_response user_query relevant_faq_text HttpOutcome.timeout =
      Except.error { status_code := 504, detail := "DeepSeek API did not respond in time." } ∧
    ∀ (o : HttpOutcome), o ≠ HttpOutcome.timeout → ∀ (d : String),
      api_generate_llm_response user_query relevant_faq_text o ≠
        Except.error { status_code := 504, detail := d } := by
  refine ⟨rfl, rfl, ?_⟩
  intro o ho d h
  cases o with
  | timeout => exact ho rfl
  | connError m => simp [api_generate_llm_response] at h
  | response r =>
      cases hr : raise_for_status r.status with
      | true =>
          by_cases h402 : r.status = 402
          · simp [api_generate_llm_response, raise_for_status, hr, h402] at h
          · simp [api_generate_llm_response, hr, h402] at h
      | false =>
          cases hb : r.jsonBody with
          | none => simp [api_generate_llm_response, hr, hb] at h
          | some body =>
              cases hc : body.choices with
              | none => simp [api_generate_llm_response, hr, hb, hc] at h
              | some cs =>
                  cases cs with
                  | nil => simp [api_generate_llm_response, hr, hb, hc] at h
                  | cons c cs' => simp [api_generate_llm_response, hr, hb, hc] at h

/-- Claim C2, witness for the amended theorem at a concrete input. -/
theorem c2_api_timeout_witness :
    (api_request "q" "c").timeout = some 10 ∧
    api_generate_llm_response "q" "c" (HttpOutcome.connError "x") ≠
      Except.error { status_code := 504, detail := "d" } :=
  ⟨(c2_api_timeout "q" "c").1,
   (c2_api_timeout "q" "c").2.2 (HttpOutcome.connError "x") (by simp) "d"⟩

/-- Claim C3, counterexample: the claim asserts the classification in
both front ends and for every non-2xx status.  The CLI front end maps a
402 and a 500 response to the same fixed string, so the quota condition
and the generic error are not distinguished there; moreover a non-2xx
status outside the 4xx/5xx ranges (here 300) is not raised by
raise_for_status and is treated as a success even in the HTTP front
end. -/
theorem c3_counterexample :
    cli_generate_llm_response "q" "c"
        (HttpOutcome.response { status := 402, text := "Insufficient Balance", jsonBody := none }) =
      cli_generate_llm_response "q" "c"
        (HttpOutcome.response { status := 500, text := "oops", jsonBody := none }) ∧
    api_generate_llm_response "q" "c"
        (HttpOutcome.response { status := 300, text := "redirect", jsonBody := some { choices := none } }) =
      Except.ok apology_message :=
  ⟨rfl, rfl⟩

/-- Claim C3 (amended): in the HTTP front end, for a response whose
status is in the 4xx/5xx ranges, status 402 is reported as the distinct
HTTPException 503 quota condition and every other such status as the
generic HTTPException 500 carrying the upstream status code and body;
the two have different status codes, so they are never confused. -/
theorem c3_api_status_classification (user_query relevant_faq_text : String)
    (r : HttpResponse) (h4 : 400 ≤ r.status) (h6 : r.status < 600) :
    (r.status = 402 →
      api_generate_llm_response user_query relevant_faq_text (HttpOutcome.response r) =
        Except.error { status_code := 503, detail := "DeepSeek API: Insufficient Balance. Please top up your account." }) ∧
    (r.status ≠ 402 →
      api_generate_llm_response user_query relevant_faq_text (HttpOutcome.response r) =
        Except.error { status_code := 500, detail := "DeepSeek API Error: " ++ toString r.status ++ " - " ++ r.text }) := by
  have hr : raise_for_status r.status = true := by
    simp [raise_for_status]
    exact ⟨h4, h6⟩
  constructor
  · intro h402
    simp [api_generate_llm_response, raise_for_status, h402]
  · intro h402
    simp [api_generate_llm_response, hr, h402]

/-- Claim C3, witness for the amended theorem at a concrete input. -/
theorem c3_api_status_classification_witness :
    api_generate_llm_response "q" "c"
        (HttpOutcome.response { status := 402, text := "b", jsonBody := none }) =
      Except.error { status_code := 503, detail := "DeepSeek API: Insufficient Balance. Please top up your account." } :=
  (c3_api_status_classification "q" "c"
    { status := 402, text := "b", jsonBody := none } (by decide) (by decide)).1 rfl

/-- Claim C4: whenever retrieval returns the empty list, both front
ends terminate in NO_MATCH: the HTTP handler returns the fixed fallback
message with source_faq None and the CLI turn prints the same fallback;
in both cases the result is the same for every hosted-model outcome, so
the Responder is never invoked. -/
theorem c4_no_match (storeResult : Except String (List StoreObject))
    (user_query : String) (outcome : HttpOutcome) :
    (api_get_relevant_faq storeResult = Except.ok [] →
      chat_with_bot storeResult outcome user_query =
        Except.ok { response := no_match_message, source_faq := none }) ∧
    (cli_get_relevant_faq storeResult = [] →
      cli_process_query storeResult outcome user_query = "Chatbot: " ++ no_match_message) := by
  constructor
  · intro h
    simp [chat_with_bot, h]
  · intro h
    simp [cli_process_query, h]

/-- Claim C4, witness at a concrete empty-store input. -/
theorem c4_no_match_witness :
    chat_with_bot (Except.ok []) (HttpOutcome.connError "x") "hi" =
      Except.ok { response := no_match_message, source_faq := none } ∧
    cli_process_query (Except.ok []) (HttpOutcome.connError "x") "hi" =
      "Chatbot: " ++ no_match_message :=
  ⟨(c4_no_match (Except.ok []) "hi" (HttpOutcome.connError "x")).1 rfl,
   (c4_no_match (Except.ok []) "hi" (HttpOutcome.connError "x")).2 rfl⟩

/-- Claim C5: a hosted-model response with a success status and a
well-formed JSON body whose choices array is absent or empty makes the
Responder of both front ends return the fixed apology string rather
than a failure. -/
theorem c5_empty_choices (user_query relevant_faq_text : String)
    (r : HttpResponse) (body : LLMBody)
    (hstatus : raise_for_status r.status = false)
    (hjson : r.jsonBody = some body)
    (hchoices : body.choices = none ∨ body.choices = some []) :
    api_generate_llm_response user_query relevant_faq_text (HttpOutcome.response r) =
      Except.ok apology_message ∧
    cli_generate_llm_response user_query relevant_faq_text (HttpOutcome.response r) =
      apology_message := by
  rcases hchoices with h | h <;>
    exact ⟨by simp [api_generate_llm_response, hstatus, hjson, h],
           by simp [cli_generate_llm_response, hstatus, hjson, h]⟩

/-- Claim C5, witness at a concrete 200 response with an empty choices
array. -/
theorem c5_empty_choices_witness :
    api_generate_llm_response "q" "c"
        (HttpOutcome.response { status := 200, text := "", jsonBody := some { choices := some [] } }) =
      Except.ok apology_message ∧
    cli_generate_llm_response "q" "c"
        (HttpOutcome.response { status := 200, text := "", jsonBody := some { choices := some [] } }) =
      apology_message :=
  c5_empty_choices "q" "c"
    { status := 200, text := "", jsonBody := some { choices := some [] } }
    { choices := some [] } rfl rfl (Or.inr rfl)

/-- Claim C6: when retrieval yields a match and the hosted model
answers with a success status and at least one choice, the Responder
returns the stripped content of the first choice and the HTTP pipeline
terminates in OK, returning that text together with the matched FAQ as
source_faq. -/
theorem c6_success (storeResult : Except String (List StoreObject))
    (user_query : String) (faq : FAQRecord) (rest : List FAQRecord)
    (r : HttpResponse) (body : LLMBody) (c : LLMChoice) (cs : List LLMChoice)
    (hret : api_get_relevant_faq storeResult = Except.ok (faq :: rest))
    (hstatus : raise_for_status r.status = false)
    (hjson : r.jsonBody = some body)
    (hchoices : body.choices = some (c :: cs)) :
    api_generate_llm_response user_query (build_context_text faq) (HttpOutcome.response r) =
      Except.ok (pyStrip c.message.content) ∧
    chat_with_bot storeResult (HttpOutcome.response r) user_query =
      Except.ok { response := pyStrip c.message.content, source_faq := some faq } := by
  have h1 : api_generate_llm_response user_query (build_context_text faq)
      (HttpOutcome.response r) = Except.ok (pyStrip c.message.content) := by
    simp [api_generate_llm_response, hstatus, hjson, hchoices]
  refine ⟨h1, ?_⟩
  simp [chat_with_bot, hret, h1, Except.map]

/-- Claim C6, witness: a one-record store and a one-choice response
produce the stripped choice content with the matched FAQ as
provenance. -/
theorem c6_success_witness :
    chat_with_bot (Except.ok [{ properties := [("question", "Q"), ("answer", "A")] }])
        (HttpOutcome.response { status := 200, text := "",
                                jsonBody := some { choices := some [{ message := { content := "  hello  " } }] } }) "hi" =
      Except.ok { response := pyStrip "  hello  ",
                  source_faq := some { question := some "Q", answer := some "A" } } :=
  (c6_success (Except.ok [{ properties := [("question", "Q"), ("answer", "A")] }]) "hi"
    { question := some "Q", answer := some "A" } []
    { status := 200, text := "",
      jsonBody := some { choices := some [{ message := { content := "  hello  " } }] } }
    { choices := some [{ message := { content := "  hello  " } }] }
    { message := { content := "  hello  " } } []
    rfl rfl rfl rfl).2

/-- Claim C7: for a single retrieved match the grounding text is
exactly the Question/Answer template, the Responder conversation is
exactly the fixed system instruction followed by one user message
holding the original question and that grounding text, and the HTTP
pipeline passes exactly that grounding text to the Responder. -/
theorem c7_grounding_and_messages (user_query q a : String) :
    build_context_text { question := some q, answer := some a } =
      "Question: " ++ q ++ "\nAnswer: " ++ a ∧
    build_messages user_query ("Question: " ++ q ++ "\nAnswer: " ++ a) =
      [ { role := "system", content := system_prompt },
        { role := "user",
          content := "User\x27s original question: " ++ user_query ++
            "\n\nRelevant College FAQ:\n" ++ ("Question: " ++ q ++ "\nAnswer: " ++ a) } ] ∧
    (api_request user_query ("Question: " ++ q ++ "\nAnswer: " ++ a)).messages =
      build_messages user_query ("Question: " ++ q ++ "\nAnswer: " ++ a) ∧
    ∀ (storeResult : Except String (List StoreObject)) (outcome : HttpOutcome),
      api_get_relevant_faq storeResult =
          Except.ok [{ question := some q, answer := some a }] →
      chat_with_bot storeResult outcome user_query =
        (api_generate_llm_response user_query
            (build_context_text { question := some q, answer := some a }) outcome).map
          (fun resp => { response := resp,
                         source_faq := some { question := some q, answer := some a } }) := by
  refine ⟨rfl, ?_, rfl, ?_⟩
  · simp [build_messages]
  · intro storeResult outcome h
    simp [chat_with_bot, h]

/-- Claim C7, witness: the pipeline equality at a concrete one-record
store. -/
theorem c7_grounding_and_messages_witness :
    chat_with_bot (Except.ok [{ properties := [("question", "Q"), ("answer", "A")] }])
        HttpOutcome.timeout "hi" =
      (api_generate_llm_response "hi"
          (build_context_text { question := some "Q", answer := some "A" })
          HttpOutcome.timeout).map
        (fun resp => { response := resp,
                       source_faq := some { question := some "Q", answer := some "A" } }) :=
  (c7_grounding_and_messages "hi" "Q" "A").2.2.2
    (Except.ok [{ properties := [("question", "Q"), ("answer", "A")] }])
    HttpOutcome.timeout rfl

/-- Claim C8: the near-vector search is issued with limit topK
requesting only the question and answer properties; assuming the store
returns at most topK objects, the Retriever result has length at most
topK and every returned record consists exactly of the question and
answer values read from some returned object, so the stored vector is
never exposed. -/
theorem c8_topk_bound (query_text : String) (top_k : Nat) (objects : List StoreObject)
    (htop : 1 ≤ top_k) (hlen : objects.length ≤ top_k) :
    (near_vector_query top_k).limit = top_k ∧
    (near_vector_query top_k).return_properties = ["question", "answer"] ∧
    api_get_relevant_faq (Except.ok objects) = Except.ok (extract_results objects) ∧
    cli_get_relevant_faq (Except.ok objects) = extract_results objects ∧
    (extract_results objects).length ≤ top_k ∧
    ∀ fr ∈ extract_results objects, ∃ o ∈ objects,
      fr = { question := o.properties.lookup "question",
             answer := o.properties.lookup "answer" } := by
  refine ⟨rfl, rfl, rfl, rfl, ?_, ?_⟩
  · exact le_trans (List.length_filterMap_le _ _) hlen
  · intro fr hfr
    rcases List.mem_filterMap.mp hfr with ⟨o, ho, hfo⟩
    refine ⟨o, ho, ?_⟩
    by_cases he : o.properties.isEmpty
    · simp [he] at hfo
    · simp [he] at hfo
      exact hfo.symm

/-- Claim C8, witness at a concrete one-object store with topK equal
to one. -/
theorem c8_topk_bound_witness :
    1 ≤ 1 ∧
    ([({ properties := [("question", "Q"), ("answer", "A")] } : StoreObject)].length ≤ 1) ∧
    ((near_vector_query 1).limit = 1 ∧
     (near_vector_query 1).return_properties = ["question", "answer"] ∧
     api_get_relevant_faq (Except.ok [{ properties := [("question", "Q"), ("answer", "A")] }]) =
       Except.ok (extract_results [{ properties := [("question", "Q"), ("answer", "A")] }]) ∧
     cli_get_relevant_faq (Except.ok [{ properties := [("question", "Q"), ("answer", "A")] }]) =
       extract_results [{ properties := [("question", "Q"), ("answer", "A")] }] ∧
     (extract_results [{ properties := [("question", "Q"), ("answer", "A")] }]).length ≤ 1 ∧
     ∀ fr ∈ extract_results [({ properties := [("question", "Q"), ("answer", "A")] } : StoreObject)],
       ∃ o ∈ [({ properties := [("question", "Q"), ("answer", "A")] } : StoreObject)],
         fr = { question := o.properties.lookup "question",
                answer := o.properties.lookup "answer" }) :=
  ⟨by decide, by decide,
   c8_topk_bound "q" 1 [{ properties := [("question", "Q"), ("answer", "A")] }]
     (by decide) (by decide)⟩

/-- Claim C9: the HTTP front end refuses to start when any of the
hosted-model key, the vector-store URL, or the vector-store key is
absent or empty, and the CLI front end refuses to start when the
hosted-model key is absent or empty; these module-level checks run when
the module loads, before any request can be served. -/
theorem c9_startup_checks (dk wu wk : Option String) :
    (api_startup_check dk wu wk = Except.ok () ↔
      (pyTruthy dk = true ∧ pyTruthy wu = true ∧ pyTruthy wk = true)) ∧
    (cli_startup_check dk = CliStartup.started ↔ pyTruthy dk = true) := by
  constructor
  · cases h1 : pyTruthy dk <;> cases h2 : pyTruthy wu <;> cases h3 : pyTruthy wk <;>
      simp [api_startup_check, h1, h2, h3]
  · cases h1 : pyTruthy dk <;> simp [cli_startup_check, h1]

/-- Claim C10: one iteration of the CLI read loop leaves the loop
exactly when the stripped, lowercased input equals the sentinel exit;
the variants EXIT and padded Exit also terminate, any other input is
processed as a query (in its stripped form), and the loop behaves
accordingly on a list of input lines. -/
theorem c10_exit_sentinel :
    (∀ line : String, cli_read_step line = CliStep.quit ↔ pyLower (pyStrip line) = "exit") ∧
    cli_read_step "EXIT" = CliStep.quit ∧
    cli_read_step "  Exit  " = CliStep.quit ∧
    cli_read_step "exit now" = CliStep.process "exit now" ∧
    (∀ (store : String → Except String (List StoreObject)) (llm : String → HttpOutcome)
        (line : String) (rest : List String),
      (cli_read_step line = CliStep.quit →
        run_chatbot store llm (line :: rest) = ["Chatbot: Goodbye!"]) ∧
      (∀ q : String, cli_read_step line = CliStep.process q →
        run_chatbot store llm (line :: rest) =
          cli_process_query (store q) (llm q) q :: run_chatbot store llm rest)) := by
  refine ⟨?_, by decide, by decide, by decide, ?_⟩
  · intro line
    by_cases h : pyLower (pyStrip line) = "exit"
    · simp [cli_read_step, h]
    · simp [cli_read_step, h]
  · intro store llm line rest
    constructor
    · intro h
      simp [run_chatbot, h]
    · intro q h
      simp [run_chatbot, h]

/-- Claim C10, witness: a run whose first line is the padded sentinel
terminates immediately with the goodbye line. -/
theorem c10_exit_sentinel_witness :
    run_chatbot (fun _ => Except.ok []) (fun _ => HttpOutcome.timeout) ["  Exit  ", "later"] =
      ["Chatbot: Goodbye!"] :=
  ((c10_exit_sentinel.2.2.2.2) (fun _ => Except.ok []) (fun _ => HttpOutcome.timeout)
    "  Exit  " ["later"]).1 (by decide)

end CollegeChatbot
